import Mathlib

/-!
Shallow embedding of the core of `netcdf_cog.py` (COG-Conversion): the
NetCDF-to-COG conversion pipeline, the dataset-descriptor (YAML) writer, the
tile selection filter, the STAC item builder, and the catalog builders.

Conventions of the embedding:
* Python strings are Lean `String`s; helpers that Python takes from its
  standard library (`str.endswith`, `str.split`, the `in` substring test)
  are re-implemented over `String.data` so that all proofs reduce in the
  kernel.
* External capabilities (GDAL subprocess calls, the pyproj point
  reprojection, the dateutil parser) are opaque in the source and are
  modelled as explicit parameters: an external command is a record carrying
  the observed exit status, the projection is a function parameter, and the
  parsed timestamp is the input to the normalization code.
* Filesystem effects are made explicit: a set of files is a `List String`
  of paths, the current working directory is threaded as a string, and
  functions return the list of write events they perform.
* Python exceptions are `Except` values; `PyErr.nameError` stands for
  `NameError` (including `UnboundLocalError`), which is the only exception
  class the per-item handler in `create_jsons` catches.
-/

namespace NetcdfCog

/-- Character-level model of Python `str.endswith`. -/
def endswith (s sfx : String) : Bool :=
  sfx.data.isSuffixOf s.data

/-- Character-level model of Python `str.split(sep)` for a one-character
separator: splits into the (always non-empty) list of groups between
occurrences of `sep`. -/
def splitOnChar (sep : Char) : List Char → List (List Char)
  | [] => [[]]
  | c :: rest =>
    let r := splitOnChar sep rest
    if c = sep then [] :: r
    else
      match r with
      | [] => [[c]]
      | g :: gs => (c :: g) :: gs

/-- Character-level model of the Python substring test `needle in haystack`. -/
def strContained (needle : List Char) : List Char → Bool
  | [] => needle.isPrefixOf []
  | c :: rest => needle.isPrefixOf (c :: rest) || strContained needle rest

/-- Python `needle in haystack` on strings. -/
def strIn (needle haystack : String) : Bool :=
  strContained needle.data haystack.data

/-!
## Conversion pipeline (`get_bandname`, `_write_cogtiff`, `_write_dataset`)
-/

/-- `get_bandname(filename)`: the band name is the last colon-separated
segment of the subdataset identifier, e.g. `BS_PC_10` out of
`NETCDF:"/g/data/.../file.nc":BS_PC_10` (netcdf_cog.py lines 574-579). -/
def get_bandname (filename : String) : String :=
  String.mk ((splitOnChar ':' filename.data).getLastD [])

/-- The reserved ancillary-suffix test applied inside `_write_cogtiff`
(lines 647-649): a band is skipped when its derived name ends with
`_observed_date` or `_source`. -/
def skipBand (band_name : String) : Bool :=
  endswith band_name "_observed_date" || endswith band_name "_source"

/-- Output file name for one converted band (lines 651-655): the ordinal
`count` is included exactly when `rastercount > 1`. -/
def cogOutName (out_f_name : String) (rastercount count : Nat) (band_name : String) : String :=
  if rastercount > 1 then
    out_f_name ++ "_" ++ toString count ++ "_" ++ band_name ++ ".tif"
  else
    out_f_name ++ "_" ++ band_name ++ ".tif"

/-- The final asset files emitted by `_write_cogtiff` (lines 640-714):
for every subdataset except the last (`subdatasets[:-1]`) and for every
band index `count` in `1..rastercount`, unless the name derived from the
subdataset identifier ends in a reserved suffix.  Each subdataset is given
by its identifier string (`netcdf[0]` in the source). -/
def write_cogtiff_outputs (out_f_name : String) (subdatasets : List String)
    (rastercount : Nat) : List String :=
  subdatasets.dropLast.flatMap (fun netcdf =>
    (List.range rastercount).filterMap (fun c =>
      if skipBand (get_bandname netcdf) then none
      else some (cogOutName out_f_name rastercount (c + 1) (get_bandname netcdf))))

/-- The YAML descriptor files written by `_write_dataset` (lines 596-618):
one per `count in range(rastercount)`, named `<base>_<count+1>.yaml` when
`rastercount > 1` and `<base>.yaml` otherwise. -/
def write_dataset_yamls (file_path : String) (rastercount : Nat) : List String :=
  (List.range rastercount).map (fun count =>
    if rastercount > 1 then file_path ++ "_" ++ toString (count + 1) ++ ".yaml"
    else file_path ++ ".yaml")

/-- One iteration of the conversion loop in `main` (lines 797-813) for a
single discovered source, over an explicit file set `st` (paths relative to
the slash-terminated output directory).  The skip check tests existence of
`output_dir + file_path + ".yaml"`; when absent, `_write_cogtiff` then
`_write_dataset` run.  Returns the new file set (write events appended)
and the number of external GDAL commands executed (`gdal_translate`,
`gdaladdo`, `gdal_translate`: three `run_command` calls per emitted band;
zero when the source is skipped). -/
def process_source (st : List String) (file_path : String)
    (subdatasets : List String) (rastercount : Nat) : List String × Nat :=
  let yaml_file := file_path ++ ".yaml"
  if st.contains yaml_file then (st, 0)
  else
    (st ++ write_cogtiff_outputs file_path subdatasets rastercount
        ++ write_dataset_yamls file_path rastercount,
     3 * (write_cogtiff_outputs file_path subdatasets rastercount).length)

/-!
## External command failure (`run_command`, the walk in `main`)
-/

/-- Observed outcome of one external command: the command name, its exit
status, and its captured output. -/
structure CmdResult where
  cmd : String
  returncode : Nat
  output : String
deriving DecidableEq

/-- `run_command` (lines 541-549): `check_call` raises on a non-zero exit
status and the handler re-raises `RuntimeError` with a message naming the
command and its exit code. -/
def run_command (r : CmdResult) : Except String Unit :=
  if r.returncode = 0 then .ok ()
  else
    .error ("command \x27" ++ r.cmd ++ "\x27 return with error (code "
            ++ toString r.returncode ++ "): " ++ r.output)

/-- One source in the walk of `main`: its output base path and the external
command outcomes its conversion performs, in order. -/
structure SourceConv where
  file_path : String
  steps : List CmdResult
deriving DecidableEq

/-- Straight-line execution of a source's external steps inside
`_write_cogtiff`: each `run_command` raise stops the sequence. -/
def convert_source : List CmdResult → Except String Unit
  | [] => .ok ()
  | r :: rest =>
    match run_command r with
    | .error e => .error e
    | .ok _ => convert_source rest

/-- The conversion walk in `main` (lines 788-813) over the sources that
lack a descriptor: there is no `try`/`except` around the per-source body,
so a `RuntimeError` raised by `run_command` propagates and terminates the
whole walk.  On success the source's descriptor is written
(`_write_dataset`); the accumulator collects the descriptor base files. -/
def main_conversion_loop (acc : List String) : List SourceConv → Except String (List String)
  | [] => .ok acc
  | s :: rest =>
    match convert_source s.steps with
    | .error e => .error e
    | .ok _ => main_conversion_loop (acc ++ [s.file_path ++ ".yaml"]) rest

/-!
## Tile selection (`create_jsons` filter) and working directory
-/

/-- A character the tile-name pattern accepts: a decimal digit or hyphen. -/
def isTileChar (c : Char) : Bool :=
  c.isDigit || c = '-'

/-- The filter in `create_jsons` (line 509): `re.match(r'[^\d-]', tile)`
anchors at the start of the string, so the tile is skipped exactly when its
first character is neither a digit nor a hyphen. -/
def tileNameSkipped (tile : String) : Bool :=
  match tile.data with
  | [] => false
  | c :: _ => !isTileChar c

/-- The working directory `create_jsons` (lines 507-515) leaves behind: it
does `os.chdir(tile_dir)` for every selected tile that passes the filter
and whose directory exists, so the final working directory is the last such
tile's directory (slash-terminated), or the starting one if none. -/
def create_jsons_final_cwd (cwd0 output_dir : String)
    (tiles_list existing_tiles : List String) : String :=
  tiles_list.foldl (fun cwd tile =>
    if tileNameSkipped tile then cwd
    else if existing_tiles.contains tile then output_dir ++ tile ++ "/"
    else cwd) cwd0

/-!
## Catalog builders (`create_catalogs`)
-/

/-- A tile directory on disk: its name and the file names `os.listdir`
returns for it. -/
structure TileFs where
  name : String
  files : List String
deriving DecidableEq

/-- The item links of one tile catalog (lines 215-217): every directory
entry whose name contains `.json` but not `catalog`. -/
def itemLinks (items_list : List String) : List String :=
  items_list.filter (fun f => strIn ".json" f && !strIn "catalog" f)

/-- The write events of the tile loop of `create_catalogs` (lines 209-241):
for each tile of `tiles_list` the catalog is dumped to the relative path
`catalog.json`, which resolves against the current working directory —
`create_catalogs` performs no `chdir` — with item links taken from the
listing of that tile's directory. -/
def create_catalogs_tile_writes (cwd : String) (tiles : List TileFs) :
    List (String × List String) :=
  tiles.map (fun t => (cwd ++ "catalog.json", itemLinks t.files))

/-- The tile-catalog write events of one whole catalog-generation pass:
`create_jsons` runs first (moving the working directory), then
`create_catalogs` writes each tile catalog relative to the directory
`create_jsons` ended in.  All selected tiles are taken to exist on disk. -/
def catalog_stage_tile_writes (cwd0 output_dir : String) (tiles : List TileFs) :
    List (String × List String) :=
  create_catalogs_tile_writes
    (create_jsons_final_cwd cwd0 output_dir (tiles.map TileFs.name) (tiles.map TileFs.name))
    tiles

/-- The root catalog's link list (lines 281-300): the three fixed
self/parent/root links followed by one `child` link per directory found by
the live `os.listdir(output_dir)` rescan. -/
def parents_n_children (base_url product : String) (live_dirs : List String) :
    List (String × String) :=
  [(base_url ++ product ++ "/catalog.json", "self"),
   (base_url ++ product ++ "/catalog.json", "parent"),
   (base_url ++ product ++ "/catalog.json", "root")]
  ++ live_dirs.map (fun tile => (tile ++ "/catalog.json", "child"))

/-- The root-catalog link list as `create_catalogs` computes it: the
`tiles_list` selector argument is shadowed by the live rescan of
`output_dir` (line 296) before the child links are built, so the result
depends only on the directories currently on disk.  The root catalog is
then dumped unconditionally (lines 341-342). -/
def root_catalog_links (base_url product : String)
    (selector_tiles_list live_dirs : List String) : List (String × String) :=
  parents_n_children base_url product live_dirs

/-!
## Item construction (`create_item_dict`, `create_geodata`, `create_jsons`)
-/

/-- A Python `datetime.timezone`: a fixed offset from UTC in minutes. -/
structure PyTimezone where
  minutes : Int
deriving DecidableEq

/-- The UTC timezone object `datetime.timezone.utc`. -/
def utc : PyTimezone := ⟨0⟩

/-- A parsed Python `datetime.datetime` (naive when `tzinfo = none`). -/
structure PyDatetime where
  year : Nat
  month : Nat
  day : Nat
  hour : Nat
  minute : Nat
  second : Nat
  microsecond : Nat
  tzinfo : Option PyTimezone
deriving DecidableEq

/-- Two-digit zero padding. -/
def pad2 (n : Nat) : String :=
  if n < 10 then "0" ++ toString n else toString n

/-- Four-digit zero padding (for the year). -/
def pad4 (n : Nat) : String :=
  if n < 10 then "000" ++ toString n
  else if n < 100 then "00" ++ toString n
  else if n < 1000 then "0" ++ toString n
  else toString n

/-- Six-digit zero padding (for microseconds). -/
def pad6 (n : Nat) : String :=
  if n < 10 then "00000" ++ toString n
  else if n < 100 then "0000" ++ toString n
  else if n < 1000 then "000" ++ toString n
  else if n < 10000 then "00" ++ toString n
  else if n < 100000 then "0" ++ toString n
  else toString n

/-- The `±HH:MM` rendering of a fixed UTC offset in `datetime.isoformat`. -/
def utcoffsetString (tz : PyTimezone) : String :=
  if tz.minutes < 0 then
    "-" ++ pad2 ((-tz.minutes).toNat / 60) ++ ":" ++ pad2 ((-tz.minutes).toNat % 60)
  else
    "+" ++ pad2 (tz.minutes.toNat / 60) ++ ":" ++ pad2 (tz.minutes.toNat % 60)

/-- Python `datetime.isoformat()`: `YYYY-MM-DDTHH:MM:SS`, a `.ffffff`
fraction only when the microsecond field is non-zero, and the UTC offset
only when the value is timezone-aware. -/
def isoformat (d : PyDatetime) : String :=
  pad4 d.year ++ "-" ++ pad2 d.month ++ "-" ++ pad2 d.day ++ "T"
    ++ pad2 d.hour ++ ":" ++ pad2 d.minute ++ ":" ++ pad2 d.second
    ++ (if d.microsecond = 0 then "" else "." ++ pad6 d.microsecond)
    ++ (match d.tzinfo with
        | none => ""
        | some tz => utcoffsetString tz)

/-- The timestamp normalization in `create_item_dict` (lines 128-135),
applied to the already-parsed `extent.center_dt`: drop microseconds, attach
UTC when the value carries no timezone, then render with `isoformat`. -/
def centerDtString (parsed : PyDatetime) : String :=
  let center_dt := { parsed with microsecond := 0 }
  match center_dt.tzinfo with
  | none => isoformat { center_dt with tzinfo := some utc }
  | some _ => isoformat center_dt

/-- One corner record of the descriptor's `extent.coord` block. -/
structure CoordCorner where
  lon : Rat
  lat : Rat
deriving DecidableEq

/-- The descriptor's `extent.coord` block: four named corners. -/
structure ExtentCoord where
  ll : CoordCorner
  lr : CoordCorner
  ul : CoordCorner
  ur : CoordCorner
deriving DecidableEq

/-- The descriptor's `extent` block: the corner coordinates and the parsed
center timestamp. -/
structure Extent where
  coord : ExtentCoord
  center_dt : PyDatetime
deriving DecidableEq

/-- The slice of one dataset descriptor (`ard_metadata`) that
`create_item_dict` reads: id, product type, the `valid_data` polygon rings
(vertices in the source projected CRS), the extent block, and the band
key-to-path map of `image.bands`. -/
structure ArdMetadata where
  id : String
  product_type : String
  valid_data : List (List (Rat × Rat))
  extent : Extent
  bands : List (String × String)
deriving DecidableEq

/-- The slice of the optional `netcdf_cog.json` configuration that
`create_item_dict` reads. -/
structure ConfigJson where
  contact_name : String
  license_name : String
  license_copyright : String
  product_name : String
  homepage : String
  provider : String
  bands : List (String × String)
deriving DecidableEq

/-- The top-level `provider` value of an item: the hard-coded default tuple
when unconfigured, or the configured provider block. -/
inductive ProviderBlock where
  | defaultTuple
  | fromConfig (p : String)
deriving DecidableEq

/-- A Python exception escaping `create_item_dict`: `NameError` (the class
the per-item handler catches, which includes `UnboundLocalError`) or any
other exception. -/
inductive PyErr where
  | nameError
  | otherError
deriving DecidableEq

/-- `create_geodata` (lines 176-192): reproject every vertex of ring 0 of
the `valid_data` coordinates through the (opaque) point projection,
in place and in order; other rings are left untouched.  Returns the
geometry's coordinate rings. -/
def create_geodata (transform : Rat × Rat → Rat × Rat)
    (valid_coord : List (List (Rat × Rat))) : List (List (Rat × Rat)) :=
  match valid_coord with
  | [] => []
  | ring0 :: rest => ring0.map transform :: rest

/-- The fields of the `item_dict` built by `create_item_dict` that the
claims observe. -/
structure ItemDict where
  id : String
  bbox : List Rat
  geometry : List (List (Rat × Rat))
  datetime : String
  provider_name : String
  license : String
  copyright : String
  product_type : String
  homepage : String
  self_href : String
  provider : ProviderBlock
  assets : List (String × String)
deriving DecidableEq

/-- The assets loop of `create_item_dict` (lines 162-172): one entry per
band key; when configured the key is looked up in the band-label table
(a missing key raises `KeyError`, not a `NameError`) and suffixed with
` GeoTIFF`; the value records the band's path. -/
def build_assets (config_json : Option ConfigJson) :
    List (String × String) → Except PyErr (List (String × String))
  | [] => .ok []
  | (key, path) :: rest =>
    match config_json with
    | some c =>
      match c.bands.lookup key with
      | none => .error PyErr.otherError
      | some label =>
        match build_assets (some c) rest with
        | .error e => .error e
        | .ok tl => .ok ((label ++ " GeoTIFF", path) :: tl)
    | none =>
      match build_assets none rest with
      | .error e => .error e
      | .ok tl => .ok ((key, path) :: tl)

/-- `create_item_dict` (lines 79-173).  The local `provider_name` is bound
only inside the `if config_json:` branch (line 120) yet is referenced
unconditionally in the item's properties (line 146), so with no
configuration the dict construction raises `NameError`
(`UnboundLocalError`) before any asset is added.  With configuration the
configured values replace the hard-coded defaults.  The `bbox` is copied
from the descriptor's `extent.coord` `ll`/`ur` corners (lines 139-142); the
geometry is the reprojected `valid_data` polygon. -/
def create_item_dict (transform : Rat × Rat → Rat × Rat) (item : String)
    (ard_metadata : ArdMetadata) (base_url ard_metadata_file item_json_file : String)
    (config_json : Option ConfigJson) : Except PyErr ItemDict :=
  let geodata := create_geodata transform ard_metadata.valid_data
  let provider_name? : Option String := config_json.map ConfigJson.contact_name
  let license :=
    match config_json with
    | some c => c.license_name
    | none => "CC BY Attribution 4.0 International License"
  let copyright :=
    match config_json with
    | some c => c.license_copyright
    | none => "DEA, Geoscience Australia"
  let product_type :=
    match config_json with
    | some c => c.product_name
    | none => ard_metadata.product_type
  let homepage :=
    match config_json with
    | some c => c.homepage
    | none => "http://www.ga.gov.au/"
  let provider :=
    match config_json with
    | some c => ProviderBlock.fromConfig c.provider
    | none => ProviderBlock.defaultTuple
  let center_dt := centerDtString ard_metadata.extent.center_dt
  match provider_name? with
  | none => .error PyErr.nameError
  | some provider_name =>
    match build_assets config_json ard_metadata.bands with
    | .error e => .error e
    | .ok assets =>
      .ok { id := ard_metadata.id,
            bbox := [ard_metadata.extent.coord.ll.lon,
                     ard_metadata.extent.coord.ll.lat,
                     ard_metadata.extent.coord.ur.lon,
                     ard_metadata.extent.coord.ur.lat],
            geometry := geodata,
            datetime := center_dt,
            provider_name := provider_name,
            license := license,
            copyright := copyright,
            product_type := product_type,
            homepage := homepage,
            self_href := base_url ++ item ++ "/" ++ item_json_file,
            provider := provider,
            assets := assets }

/-- The per-tile loop body of `create_jsons` (lines 516-534): for each YAML
descriptor (given here as its file name and parsed content), build the item
dict and write `<name>_STAC.json`; a `NameError` is caught per item (the
item is skipped and the loop continues), any other exception propagates.
Returns the `(file, item)` write events. -/
def create_jsons_tile (transform : Rat × Rat → Rat × Rat) (tile : String)
    (base_url : String) (config_json : Option ConfigJson) :
    List (String × ArdMetadata) → List (String × ItemDict) →
    Except PyErr (List (String × ItemDict))
  | [], written => .ok written
  | (ard_metadata_file, ard_metadata) :: rest, written =>
    let item_json_file := ard_metadata_file.replace ".yaml" "_STAC.json"
    match create_item_dict transform tile ard_metadata base_url
        ard_metadata_file item_json_file config_json with
    | .ok d =>
      create_jsons_tile transform tile base_url config_json rest
        (written ++ [(item_json_file, d)])
    | .error PyErr.nameError =>
      create_jsons_tile transform tile base_url config_json rest written
    | .error e => .error e

/-- Modelled from the spec (section 8, bbox law): the bounding box
`[min lon, min lat, max lon, max lat]` computed over all vertices of a
geometry's rings.  This is the spec's formula, stated for comparison with
the `bbox` the code actually builds. -/
def bboxOfGeometry (rings : List (List (Rat × Rat))) : List Rat :=
  match rings.flatten with
  | [] => []
  | v :: rest =>
    [rest.foldl (fun a p => min a p.1) v.1,
     rest.foldl (fun a p => min a p.2) v.2,
     rest.foldl (fun a p => max a p.1) v.1,
     rest.foldl (fun a p => max a p.2) v.2]

/-!
## Helper lemmas
-/

/-- Auxiliary: a `filterMap` that drops everything produces an empty list. -/
theorem filterMap_const_none_length {α β : Type} (l : List α) :
    (l.filterMap (fun _ => (none : Option β))).length = 0 := by
  induction l with
  | nil => rfl
  | cons a t ih => simp [ih]

/-- Auxiliary: a `filterMap` that keeps everything preserves the length. -/
theorem filterMap_const_some_length {α β : Type} (l : List α) (f : α → β) :
    (l.filterMap (fun a => some (f a))).length = l.length := by
  induction l with
  | nil => rfl
  | cons a t ih => simp [ih]

/-- Auxiliary: filtering the child links of `parents_n_children` for the
`child` relation keeps them all. -/
theorem filter_child_of_map (live : List String) :
    ((live.map (fun tile => (tile ++ "/catalog.json", "child"))).filter
        (fun l => l.2 == "child"))
      = live.map (fun tile => (tile ++ "/catalog.json", "child")) := by
  induction live with
  | nil => rfl
  | cons a t ih => simp [List.filter_cons, ih]

/-- Auxiliary: with no configuration, `create_item_dict` raises `NameError`
because the local `provider_name` is referenced without ever being bound. -/
theorem create_item_dict_unconfigured (transform : Rat × Rat → Rat × Rat)
    (item : String) (ard : ArdMetadata) (b f j : String) :
    create_item_dict transform item ard b f j none = .error PyErr.nameError := rfl

/-- Auxiliary: with no configuration, the per-tile loop of `create_jsons`
catches the `NameError` of every item and finishes with its write list
unchanged. -/
theorem create_jsons_tile_unconfigured (transform : Rat × Rat → Rat × Rat)
    (tile base_url : String) :
    ∀ (yamls : List (String × ArdMetadata)) (written : List (String × ItemDict)),
      create_jsons_tile transform tile base_url none yamls written = .ok written := by
  intro yamls
  induction yamls with
  | nil => intro w; rfl
  | cons hd tl ih =>
    intro w
    obtain ⟨f, a⟩ := hd
    exact ih w

/-!
## Claim theorems
-/

/-- Claim C1 (code bug evaluated): the conversion stage is only idempotent
for unstacked sources.  For a stacked source (`rastercount = 2`, base
`t/f`), the first run writes descriptors `t/f_1.yaml` and `t/f_2.yaml`,
but the skip check of `main` looks for `t/f.yaml`, which is never written:
a second run over the same source performs 6 external GDAL calls instead
of 0.  For an unstacked source whose descriptor `t/f.yaml` exists, the
re-run performs 0 external calls. -/
theorem C1_stacked_source_reconverted :
    ((process_source [] "t/f" ["NETCDF:x:PV", "NETCDF:x:NPV"] 2).1.contains "t/f_1.yaml" = true)
    ∧ ((process_source [] "t/f" ["NETCDF:x:PV", "NETCDF:x:NPV"] 2).1.contains "t/f_2.yaml" = true)
    ∧ ((process_source [] "t/f" ["NETCDF:x:PV", "NETCDF:x:NPV"] 2).1.contains "t/f.yaml" = false)
    ∧ (process_source (process_source [] "t/f" ["NETCDF:x:PV", "NETCDF:x:NPV"] 2).1
        "t/f" ["NETCDF:x:PV", "NETCDF:x:NPV"] 2).2 = 6
    ∧ (process_source ["t/f.yaml"] "t/f" ["NETCDF:x:PV", "NETCDF:x:NPV"] 1).2 = 0 := by
  refine ⟨by decide, by decide, by decide, by decide, by decide⟩

/-- Claim C2 (code bug evaluated): the tile catalogs are not persisted in
each tile's own directory.  `create_catalogs` opens the relative path
`catalog.json`, which resolves against the working directory left behind by
`create_jsons` (the last visited tile's directory).  In a run over tiles
`0_0` and `1_1`, both tile catalogs are written to
`/out/1_1/catalog.json` — the catalog carrying tile `0_0`'s item links is
placed in tile `1_1`'s directory and then overwritten — and no write ever
targets `/out/0_0/catalog.json`.  The item-link content itself does match
each tile's own non-catalog JSON files. -/
theorem C2_tile_catalogs_written_to_cwd :
    catalog_stage_tile_writes "/start/" "/out/"
        [⟨"0_0", ["a_STAC.json", "catalog.json"]⟩, ⟨"1_1", ["b_STAC.json"]⟩]
      = [("/out/1_1/catalog.json", ["a_STAC.json"]), ("/out/1_1/catalog.json", ["b_STAC.json"])]
    ∧ "/out/0_0/catalog.json" ∉
        (catalog_stage_tile_writes "/start/" "/out/"
          [⟨"0_0", ["a_STAC.json", "catalog.json"]⟩, ⟨"1_1", ["b_STAC.json"]⟩]).map Prod.fst := by
  refine ⟨by decide, by decide⟩

/-- Claim C3 counterexample: an Item whose `bbox` (copied from the
descriptor's `ll`/`ur` extent corners, here `[5, 5, 6, 6]`) differs from
the min/max over its own geometry vertices (`[0, 0, 1, 1]` for the unit
square ring), even though both are part of the same produced document. -/
theorem C3_counterexample :
    (create_item_dict (fun p => p) "0_0"
        ⟨"i", "fc", [[(0, 0), (1, 0), (1, 1), (0, 1), (0, 0)]],
          ⟨⟨⟨5, 5⟩, ⟨0, 0⟩, ⟨0, 0⟩, ⟨6, 6⟩⟩, ⟨2020, 1, 1, 0, 0, 0, 0, none⟩⟩, []⟩
        "u/" "a.yaml" "a_STAC.json"
        (some ⟨"GA", "CC", "DEA", "FC", "h", "p", []⟩)).map ItemDict.bbox
      = .ok [5, 5, 6, 6]
    ∧ (create_item_dict (fun p => p) "0_0"
        ⟨"i", "fc", [[(0, 0), (1, 0), (1, 1), (0, 1), (0, 0)]],
          ⟨⟨⟨5, 5⟩, ⟨0, 0⟩, ⟨0, 0⟩, ⟨6, 6⟩⟩, ⟨2020, 1, 1, 0, 0, 0, 0, none⟩⟩, []⟩
        "u/" "a.yaml" "a_STAC.json"
        (some ⟨"GA", "CC", "DEA", "FC", "h", "p", []⟩)).map
          (fun d => bboxOfGeometry d.geometry)
      = .ok [0, 0, 1, 1]
    ∧ ([5, 5, 6, 6] : List Rat) ≠ [0, 0, 1, 1] := by
  refine ⟨rfl, rfl, by decide⟩

/-- Claim C3 (amended): for every Item that `create_item_dict` produces,
`bbox` equals `[ll.lon, ll.lat, ur.lon, ur.lat]` copied verbatim from the
descriptor's `extent.coord` corner fields; it is not recomputed from the
geometry vertices. -/
theorem C3_bbox_copied_from_extent_corners
    (transform : Rat × Rat → Rat × Rat) (item : String) (ard : ArdMetadata)
    (base_url f j : String) (config : Option ConfigJson) (d : ItemDict)
    (h : create_item_dict transform item ard base_url f j config = .ok d) :
    d.bbox = [ard.extent.coord.ll.lon, ard.extent.coord.ll.lat,
              ard.extent.coord.ur.lon, ard.extent.coord.ur.lat] := by
  cases config with
  | none => exact absurd h (by simp [create_item_dict])
  | some c =>
    simp only [create_item_dict, Option.map] at h
    split at h
    · exact absurd h (by simp)
    · injection h with h
      subst h
      rfl

/-- Claim C3 witness: the amended bbox law evaluated at a concrete
descriptor. -/
theorem C3_witness :
    (ItemDict.mk "i" [5, 5, 6, 6] [] "2020-01-01T00:00:00+00:00" "GA" "CC" "DEA"
        "FC" "h" "u/t/a_STAC.json" (.fromConfig "p") []).bbox
      = [(5 : Rat), 5, 6, 6] :=
  C3_bbox_copied_from_extent_corners (fun p => p) "t"
    ⟨"i", "fc", [], ⟨⟨⟨5, 5⟩, ⟨0, 0⟩, ⟨0, 0⟩, ⟨6, 6⟩⟩, ⟨2020, 1, 1, 0, 0, 0, 0, none⟩⟩, []⟩
    "u/" "a.yaml" "a_STAC.json" (some ⟨"GA", "CC", "DEA", "FC", "h", "p", []⟩) _ (by rfl)

/-- Claim C4 counterexample: a source with K = 4 subdatasets, R = 1 band
each, one of whose subdataset names carries the reserved `_source` suffix.
The code emits 2 assets (the non-reserved members of the first K−1
subdatasets), while the claim's formula (K−1) × (R − |reserved bands|)
= 3 × 0 gives 0. -/
theorem C4_counterexample :
    (write_cogtiff_outputs "f" ["NETCDF:x:a_source", "NETCDF:x:b", "NETCDF:x:c", "NETCDF:x:d"] 1).length = 2
    ∧ (["NETCDF:x:a_source", "NETCDF:x:b", "NETCDF:x:c", "NETCDF:x:d"].countP
          (fun n => skipBand (get_bandname n))) = 1
    ∧ ((4 - 1) * (1 - 1) : Nat) = 0
    ∧ (2 : Nat) ≠ 0 := by
  refine ⟨by decide, by decide, by decide, by decide⟩

/-- Claim C4 (amended): the band name is derived from the subdataset
identifier, so the reserved-suffix skip is decided once per subdataset and
applies to all of its R band indices together: the number of emitted final
assets equals R times the number of the first K−1 subdatasets whose derived
name does not end in a reserved suffix. -/
theorem C4_asset_count_per_subdataset (o : String) (s : List String) (r : Nat) :
    (write_cogtiff_outputs o s r).length
      = r * s.dropLast.countP (fun n => !skipBand (get_bandname n)) := by
  unfold write_cogtiff_outputs
  generalize s.dropLast = l
  induction l with
  | nil => simp
  | cons hd tl ih =>
    rw [List.flatMap_cons, List.length_append, ih]
    by_cases h : skipBand (get_bandname hd) = true
    · rw [List.countP_cons_of_neg _ _ (by simp [h])]
      simp only [h, if_true]
      rw [filterMap_const_none_length]
      omega
    · rw [List.countP_cons_of_pos _ _ (by simp [h])]
      have hfix : (fun c => if skipBand (get_bandname hd) = true then none
          else some (cogOutName o r (c + 1) (get_bandname hd)))
          = (fun c => some (cogOutName o r (c + 1) (get_bandname hd))) := by
        funext c
        rw [if_neg h]
      rw [hfix, filterMap_const_some_length, List.length_range, Nat.mul_succ]
      omega

/-- Claim C5 counterexample: the candidate name `12ab` contains characters
outside digits and hyphen, yet it is not skipped, because
`re.match(r'[^\d-]', tile)` only inspects the start of the string. -/
theorem C5_counterexample :
    ("12ab".data.any (fun c => !isTileChar c) = true)
    ∧ tileNameSkipped "12ab" = false := by
  refine ⟨by decide, by decide⟩

/-- Claim C5 (amended): a candidate tile name is skipped iff its first
character exists and is neither a digit nor a hyphen; the characters after
the first are never examined. -/
theorem C5_filter_checks_first_character_only (t : String) :
    (tileNameSkipped t = true ↔ ∃ c cs, t.data = c :: cs ∧ isTileChar c = false)
    ∧ ∀ c r1 r2, tileNameSkipped (String.mk (c :: r1)) = tileNameSkipped (String.mk (c :: r2)) := by
  constructor
  · obtain ⟨data⟩ := t
    cases data with
    | nil => simp [tileNameSkipped]
    | cons c cs => simp [tileNameSkipped]
  · intro c r1 r2
    rfl

/-- Claim C6 counterexample: for a stacked source with K = 3 subdatasets
and rastercount R = 2, the conversion writes 2 descriptor files (one per
raster ordinal), not 3 (one per subdataset) as the claim requires. -/
theorem C6_counterexample :
    ((process_source [] "f" ["a", "b", "c"] 2).1.countP (fun n => endswith n ".yaml") = 2)
    ∧ (["a", "b", "c"] : List String).length = 3
    ∧ (2 : Nat) ≠ 3 := by
  refine ⟨by decide, by decide, by decide⟩

/-- Claim C6 (amended): `_write_dataset` persists exactly R descriptor
files where R is the rastercount (not the subdataset count K): named
`<base>_<ordinal>.yaml` with ordinals 1..R when R > 1, and a single
`<base>.yaml` when R = 1. -/
theorem C6_descriptor_count_is_rastercount (base : String) (r : Nat) :
    (write_dataset_yamls base r).length = r
    ∧ write_dataset_yamls base 1 = [base ++ ".yaml"]
    ∧ (∀ i, i < r → 1 < r →
        (write_dataset_yamls base r).getD i "" = base ++ "_" ++ toString (i + 1) ++ ".yaml") := by
  refine ⟨by simp [write_dataset_yamls], rfl, ?_⟩
  intro i hi hr
  unfold write_dataset_yamls
  rw [List.getD_eq_getElem?_getD, List.getElem?_map, List.getElem?_range hi]
  simp [hr]

/-- Claim C6 witness: the amended naming law evaluated at rastercount 2. -/
theorem C6_witness : (write_dataset_yamls "f" 2).getD 1 "" = "f_2.yaml" :=
  (C6_descriptor_count_is_rastercount "f" 2).2.2 1 (by decide) (by decide)

/-- Claim C7 counterexample: when source `t/a`'s first external command
exits with status 1, the walk of `main` terminates with the RuntimeError
diagnostic instead of continuing: source `t/b`, which on its own converts
fine and gets its descriptor `t/b.yaml`, is never reached. -/
theorem C7_counterexample :
    main_conversion_loop [] [⟨"t/a", [⟨"gdal_translate", 1, ""⟩]⟩, ⟨"t/b", [⟨"gdal_translate", 0, ""⟩]⟩]
      = .error "command \x27gdal_translate\x27 return with error (code 1): "
    ∧ main_conversion_loop [] [⟨"t/b", [⟨"gdal_translate", 0, ""⟩]⟩] = .ok ["t/b.yaml"] := by
  exact ⟨rfl, rfl⟩

/-- Claim C7 (amended): a failing external step aborts the current source's
conversion with a diagnostic naming the command and exit status, and —
because `main` wraps the walk in no handler — the propagated RuntimeError
terminates the whole run: no descriptor is written for the failing source
and no later source is processed. -/
theorem C7_step_failure_aborts_whole_run (acc : List String) (s : SourceConv)
    (rest : List SourceConv) (e : String) (h : convert_source s.steps = .error e) :
    main_conversion_loop acc (s :: rest) = .error e := by
  simp [main_conversion_loop, h]

/-- Claim C7 witness: the abort evaluated at a concrete failing source. -/
theorem C7_witness :
    main_conversion_loop [] [⟨"t/c", [⟨"gdaladdo", 2, "x"⟩]⟩, ⟨"t/d", []⟩]
      = .error "command \x27gdaladdo\x27 return with error (code 2): x" :=
  C7_step_failure_aborts_whole_run [] ⟨"t/c", [⟨"gdaladdo", 2, "x"⟩]⟩ [⟨"t/d", []⟩]
    "command \x27gdaladdo\x27 return with error (code 2): x" (by rfl)

/-- Claim C8: the root catalog's link list is built from the live rescan of
the output root only — it is identical for any two selectors — every
directory in the rescan contributes a `child` link, and the `child` links
are exactly one per live directory.  Hence a tile directory added between
two catalog-generation runs appears in the next run's root catalog. -/
theorem C8_root_catalog_from_live_rescan (base_url product : String)
    (sel1 sel2 live : List String) (t : String) (h : t ∈ live) :
    root_catalog_links base_url product sel1 live
        = root_catalog_links base_url product sel2 live
    ∧ (t ++ "/catalog.json", "child") ∈ root_catalog_links base_url product sel1 live
    ∧ (root_catalog_links base_url product sel1 live).filter (fun l => l.2 == "child")
        = live.map (fun tile => (tile ++ "/catalog.json", "child")) := by
  refine ⟨rfl, ?_, ?_⟩
  · unfold root_catalog_links parents_n_children
    simp only [List.mem_append]
    exact Or.inr (List.mem_map_of_mem _ h)
  · unfold root_catalog_links parents_n_children
    rw [List.filter_append, filter_child_of_map]
    rfl

/-- Claim C8 witness: the freshness law at a concrete live listing in which
tile `9_-45` appeared between runs. -/
theorem C8_witness :
    ("9_-45/catalog.json", "child")
      ∈ root_catalog_links "https://dea.ga.gov.au/" "FCP" ["-15_-40"] ["-15_-40", "9_-45"] :=
  (C8_root_catalog_from_live_rescan "https://dea.ga.gov.au/" "FCP" ["-15_-40"] ["ALL"]
      ["-15_-40", "9_-45"] "9_-45" (by decide)).2.1

/-- Claim C9: the center timestamp is normalized by dropping sub-second
precision and attaching UTC when no timezone is present, keeping the zone
otherwise; `2020-01-01T00:00:00` (naive) renders as
`2020-01-01T00:00:00+00:00`, and an aware timestamp with microseconds keeps
its `+10:00` zone with seconds precision. -/
theorem C9_center_dt_normalization :
    (∀ d : PyDatetime, centerDtString d
        = isoformat { d with microsecond := 0, tzinfo := some (d.tzinfo.getD utc) })
    ∧ centerDtString ⟨2020, 1, 1, 0, 0, 0, 0, none⟩ = "2020-01-01T00:00:00+00:00"
    ∧ centerDtString ⟨2020, 1, 1, 0, 0, 0, 123456, some ⟨600⟩⟩ = "2020-01-01T00:00:00+10:00" := by
  refine ⟨?_, by decide, by decide⟩
  intro d
  obtain ⟨y, mo, da, h, mi, s, us, tz⟩ := d
  cases tz <;> rfl

/-- Claim C10: with no configuration document, building any item dict
raises `NameError` (the local `provider_name` is bound only in the
configured branch), the per-item handler catches exactly that error, and so
an unconfigured run writes no item JSON for any descriptor while running to
completion. -/
theorem C10_unconfigured_writes_no_items :
    (∀ (transform : Rat × Rat → Rat × Rat) (item : String) (ard : ArdMetadata)
        (b f j : String),
        create_item_dict transform item ard b f j none = .error PyErr.nameError)
    ∧ (∀ (transform : Rat × Rat → Rat × Rat) (tile base_url : String)
        (yamls : List (String × ArdMetadata)),
        create_jsons_tile transform tile base_url none yamls [] = .ok []) := by
  constructor
  · intro transform item ard b f j
    exact create_item_dict_unconfigured transform item ard b f j
  · intro transform tile base_url yamls
    exact create_jsons_tile_unconfigured transform tile base_url yamls []

end NetcdfCog
